import Mathlib

/-!
Verification of the coordinate-and-offset algebra of the `vrt_buffer` crate
(`src/lib.rs`).  The geotransform arithmetic that the Rust code performs on
`f64` values is embedded over `ℚ` (exact arithmetic); the Rust integer casts
are modelled explicitly:

* `q.max(0.0).floor() as isize` (padder offsets, lib.rs:184-189) — the value
  is non-negative after `max`/`floor`, so the cast is exact: `⌊max q 0⌋ : ℤ`.
* `q as usize` (cropper offsets, lib.rs:269-270) — Rust float-to-int casts
  saturate: negative values go to 0, otherwise the value is truncated toward
  zero.  For every rational `q`, `⌊q⌋.toNat` computes exactly that (for
  `q ≥ 0` floor and truncation agree; for `q < 0` `toNat` yields 0 just as
  the saturating cast does).

A raster (`Dataset` + band 1) is a size, a geotransform, a projection string
and a total pixel function `ℤ → ℤ → ℚ`; only the values inside
`[0, width) × [0, height)` are meaningful.  A windowed `read_as` succeeds
exactly when GDAL's would: the requested window must be non-empty and lie
inside the raster (an out-of-range or wrapped-negative request makes GDAL
return an error, which the model renders as `none`).
-/

namespace VrtBuffer

/-- The six GDAL geotransform coefficients `[x_origin, pixel_width, x_skew,
y_origin, y_skew, pixel_height]` (indices 0..5 of the Rust `[f64; 6]`). -/
structure GeoTransform where
  xOrigin : ℚ
  pixelWidth : ℚ
  xSkew : ℚ
  yOrigin : ℚ
  ySkew : ℚ
  pixelHeight : ℚ
deriving DecidableEq

/-- An opened raster: size in pixels, geotransform, projection string and the
band-1 samples as a total function (pixels outside the raster are junk that
no in-bounds read ever touches). -/
structure Raster where
  width : ℕ
  height : ℕ
  gt : GeoTransform
  projection : String
  data : ℤ → ℤ → ℚ

/-- lib.rs:175-177 — the expanded geotransform of the padded raster:
`new_geotransform[0] -= margin * geotransform[1]` and
`new_geotransform[3] -= margin * geotransform[5]`. -/
def expand_origin (gt : GeoTransform) (margin : ℕ) : GeoTransform :=
  { gt with
      xOrigin := gt.xOrigin - (margin : ℚ) * gt.pixelWidth
      yOrigin := gt.yOrigin - (margin : ℚ) * gt.pixelHeight }

/-- lib.rs:184-186 — `xoff = ((new_gt[0] - vrt_gt[0]) / vrt_gt[1]).max(0.0).floor() as isize`. -/
def pad_xoff (gt vgt : GeoTransform) (margin : ℕ) : ℤ :=
  ⌊max (((expand_origin gt margin).xOrigin - vgt.xOrigin) / vgt.pixelWidth) 0⌋

/-- lib.rs:187-189 — `yoff = ((vrt_gt[3] - new_gt[3]) / vrt_gt[5].abs()).max(0.0).floor() as isize`. -/
def pad_yoff (gt vgt : GeoTransform) (margin : ℕ) : ℤ :=
  ⌊max ((vgt.yOrigin - (expand_origin gt margin).yOrigin) / |vgt.pixelHeight|) 0⌋

/-- lib.rs:192-193 — `cols = (vrt_width as isize - xoff).min((width + 2*margin) as isize)`. -/
def pad_cols (ds vrt : Raster) (margin : ℕ) : ℤ :=
  min ((vrt.width : ℤ) - pad_xoff ds.gt vrt.gt margin) ((ds.width + 2 * margin : ℕ) : ℤ)

/-- lib.rs:194-195 — `rows = (vrt_height as isize - yoff).min((height + 2*margin) as isize)`. -/
def pad_rows (ds vrt : Raster) (margin : ℕ) : ℤ :=
  min ((vrt.height : ℤ) - pad_yoff ds.gt vrt.gt margin) ((ds.height + 2 * margin : ℕ) : ℤ)

/-- lib.rs:269 — `x_offset = ((gt_o[0] - gt_b[0]) / gt_b[1]) as usize`
(saturating Rust float-to-usize cast, see the header comment). -/
def crop_x_offset (gto gtb : GeoTransform) : ℕ :=
  (⌊(gto.xOrigin - gtb.xOrigin) / gtb.pixelWidth⌋).toNat

/-- lib.rs:270 — `y_offset = ((gt_o[3] - gt_b[3]) / gt_b[5]) as usize`. -/
def crop_y_offset (gto gtb : GeoTransform) : ℕ :=
  (⌊(gto.yOrigin - gtb.yOrigin) / gtb.pixelHeight⌋).toNat

/-- `RasterBand::read_as` on band 1: returns the requested window when it is
non-empty and lies entirely inside the raster, and fails (GDAL error)
otherwise.  The returned function maps window-local pixel coordinates to
samples. -/
def read_as (r : Raster) (xoff yoff cols rows : ℤ) : Option (ℤ → ℤ → ℚ) :=
  if 0 ≤ xoff ∧ 0 ≤ yoff ∧ 0 < cols ∧ 0 < rows ∧
      xoff + cols ≤ (r.width : ℤ) ∧ yoff + rows ≤ (r.height : ℤ) then
    some (fun c rr => r.data (xoff + c) (yoff + rr))
  else
    none

/-- The PixelWindow safety invariant of the spec: the window
`(xoff, yoff, cols, rows)` lies inside `[0, width) × [0, height)` of `r`. -/
def window_in_bounds (r : Raster) (xoff yoff cols rows : ℤ) : Prop :=
  0 ≤ xoff ∧ 0 ≤ yoff ∧ xoff + cols ≤ (r.width : ℤ) ∧ yoff + rows ≤ (r.height : ℤ)

instance (r : Raster) (a b c d : ℤ) : Decidable (window_in_bounds r a b c d) := by
  unfold window_in_bounds; infer_instance

/-- lib.rs:154-241, `add_margin_to_geotiff`: compute the expanded
geotransform, the clamped offsets into the mosaic and the clamped window
size, read that window from the mosaic band, and produce a new raster of the
window's size carrying the expanded geotransform and the tile's projection.
Any failing step (out-of-range read, creation of an empty raster) yields
`none`, mirroring the `Err` return. -/
def add_margin_to_geotiff (ds : Raster) (margin : ℕ) (vrt : Raster) : Option Raster :=
  match read_as vrt (pad_xoff ds.gt vrt.gt margin) (pad_yoff ds.gt vrt.gt margin)
      (pad_cols ds vrt margin) (pad_rows ds vrt margin) with
  | none => none
  | some w =>
      some { width := (pad_cols ds vrt margin).toNat
             height := (pad_rows ds vrt margin).toNat
             gt := expand_origin ds.gt margin
             projection := ds.projection
             data := w }

/-- lib.rs:242-324, `trim_buffered_to_size`: compute the (unclamped,
saturating-cast) offsets of the original tile inside the buffered raster,
read a window of exactly the original raster's size there, and produce a
raster of the original's size, geotransform and projection. -/
def trim_buffered_to_size (dso dsb : Raster) : Option Raster :=
  match read_as dsb ((crop_x_offset dso.gt dsb.gt : ℕ) : ℤ)
      ((crop_y_offset dso.gt dsb.gt : ℕ) : ℤ) (dso.width : ℤ) (dso.height : ℤ) with
  | none => none
  | some w =>
      some { width := dso.width
             height := dso.height
             gt := dso.gt
             projection := dso.projection
             data := w }

/-- One entry yielded by `fs::read_dir`: either a failed `DirEntry`
(lib.rs:81-87) or a path with its extension, file name, and the raster the
path opens to (`none` when `Dataset::open` fails). -/
inductive DirItem where
  | badPath : DirItem
  | entry (ext : Option String) (name : Option String) (content : Option Raster) : DirItem

/-- The fatal, batch-level failures of lib.rs's driver loops. -/
inductive BatchError where
  | createDirFailed : BatchError
  | openVrtFailed : BatchError
  | readDirFailed : BatchError
deriving DecidableEq

/-- The body of the loop in `vrt_buffer` (lib.rs:80-107): only `tif`/`tiff`
paths are processed; a bad path, a nameless path, a tile that fails to open
or a failing `add_margin_to_geotiff` is reported and skipped (`none`). -/
def pad_item (vrt : Raster) (margin : ℕ) : DirItem → Option (String × Raster)
  | DirItem.badPath => none
  | DirItem.entry ext name content =>
      match ext with
      | none => none
      | some e =>
          if e = "tif" ∨ e = "tiff" then
            match name with
            | none => none
            | some n =>
                match content with
                | none => none
                | some ds =>
                    match add_margin_to_geotiff ds margin vrt with
                    | none => none
                    | some out => some (n, out)
          else none

/-- lib.rs:62-110, `vrt_buffer`: create the output directory, open the VRT
(and its band 1), enumerate the input directory — each of these failures is
fatal — then process every entry, collecting the successful outputs. -/
def vrt_buffer (createDirOk : Bool) (vrtOpen : Option Raster)
    (readDir : Option (List DirItem)) (margin : ℕ) :
    Except BatchError (List (String × Raster)) :=
  if createDirOk then
    match vrtOpen with
    | none => Except.error BatchError.openVrtFailed
    | some vrt =>
        match readDir with
        | none => Except.error BatchError.readDirFailed
        | some items => Except.ok (items.filterMap (pad_item vrt margin))
  else Except.error BatchError.createDirFailed

/-- The body of the loop in `crop_down_to_size` (lib.rs:124-148): only
`tif`/`tiff` paths are processed; a bad path, a nameless path, a buffered
tile that fails to open, a missing same-named original (`orgDir`), or a
failing `trim_buffered_to_size` is reported and skipped. -/
def crop_item (orgDir : String → Option Raster) : DirItem → Option (String × Raster)
  | DirItem.badPath => none
  | DirItem.entry ext name content =>
      match ext with
      | none => none
      | some e =>
          if e = "tif" ∨ e = "tiff" then
            match name with
            | none => none
            | some n =>
                match content with
                | none => none
                | some dsb =>
                    match orgDir n with
                    | none => none
                    | some dso =>
                        match trim_buffered_to_size dso dsb with
                        | none => none
                        | some out => some (n, out)
          else none

/-- lib.rs:116-152, `crop_down_to_size`: create the output directory and
enumerate the input directory — these failures are fatal — then process
every entry, collecting the successful outputs. -/
def crop_down_to_size (createDirOk : Bool) (orgDir : String → Option Raster)
    (readDir : Option (List DirItem)) :
    Except BatchError (List (String × Raster)) :=
  if createDirOk then
    match readDir with
    | none => Except.error BatchError.readDirFailed
    | some items => Except.ok (items.filterMap (crop_item orgDir))
  else Except.error BatchError.createDirFailed

/-- Modelled from the spec (§4.3): truncation toward zero, the rounding rule
the spec claims for the Cropper's offsets — to be compared against the
saturating cast the code performs. -/
def truncTowardZero (q : ℚ) : ℤ :=
  if 0 ≤ q then ⌊q⌋ else ⌈q⌉

/-- Whether a batch-level call succeeded. -/
def batchOk (e : Except BatchError (List (String × Raster))) : Bool :=
  match e with
  | Except.ok _ => true
  | Except.error _ => false

/-! ### Concrete rasters used by counterexamples and witnesses -/

/-- A 2000×2000 mosaic covering world `(0,0)`–`(2000,2000)` at pixel size
`(1,-1)`, with pairwise distinct samples. -/
def mosaic2000 : Raster :=
  { width := 2000, height := 2000
    gt := ⟨0, 1, 0, 2000, 0, -1⟩
    projection := "EPSG:3006"
    data := fun c r => (c : ℚ) + 2000 * r }

/-- Scenario A tile: 100×100 at world origin `(1000, 2000)`, pixel size `(1,-1)`. -/
def tileA : Raster :=
  { width := 100, height := 100
    gt := ⟨1000, 1, 0, 2000, 0, -1⟩
    projection := "EPSG:3006"
    data := fun c r => (1000 + c : ℚ) + 2000 * r }

/-- A 100×100 tile at the top-left corner of `mosaic2000` whose samples agree
with the mosaic's. -/
def tileCorner : Raster :=
  { width := 100, height := 100
    gt := ⟨0, 1, 0, 2000, 0, -1⟩
    projection := "EPSG:3006"
    data := fun c r => (c : ℚ) + 2000 * r }

/-- A 100×100 interior tile of `mosaic2000` at mosaic pixel `(1000, 100)`
(world origin `(1000, 1900)`) whose samples agree with the mosaic's. -/
def tileInterior : Raster :=
  { width := 100, height := 100
    gt := ⟨1000, 1, 0, 1900, 0, -1⟩
    projection := "EPSG:3006"
    data := fun c r => (1000 + c : ℚ) + 2000 * (100 + r) }

/-- A 110×110 mosaic covering `(0,0)`–`(110,110)` at pixel size `(1,-1)`. -/
def mosaic110 : Raster :=
  { width := 110, height := 110
    gt := ⟨0, 1, 0, 110, 0, -1⟩
    projection := "EPSG:3006"
    data := fun c r => (c : ℚ) + 110 * r }

/-- A 100×100 tile at the top-left corner of `mosaic110`. -/
def tileCorner110 : Raster :=
  { width := 100, height := 100
    gt := ⟨0, 1, 0, 110, 0, -1⟩
    projection := "EPSG:3006"
    data := fun c r => (c : ℚ) + 110 * r }

/-- A geotransform whose origin lies 10 pixels left of `gtOrig110`-style
rasters: world origin `(10, 1990)`, pixel size `(1,-1)`. -/
def gtShift : GeoTransform := ⟨10, 1, 0, 1990, 0, -1⟩

/-- A 50×50 raster at world origin `(10, 1990)`. -/
def rShift : Raster :=
  { width := 50, height := 50
    gt := gtShift
    projection := "EPSG:3006"
    data := fun _ _ => 0 }

/-! ### Helper lemmas -/

/-- Flooring after clamping at 0 is clamping at 0 after flooring: the padder's
`q.max(0.0).floor()` equals `max 0 ⌊q⌋`. -/
theorem floor_max_zero (q : ℚ) : ⌊max q 0⌋ = max 0 ⌊q⌋ := by
  rcases le_total q 0 with h | h
  · rw [max_eq_right h, Int.floor_zero, eq_comm, max_eq_left]
    calc ⌊q⌋ ≤ ⌊(0 : ℚ)⌋ := Int.floor_le_floor h
    _ = 0 := Int.floor_zero
  · rw [max_eq_left h, eq_comm, max_eq_right]
    exact Int.floor_nonneg.mpr h

/-- The Rust saturating `f64 as usize` cast (encoded as `⌊q⌋.toNat`) equals
truncation toward zero clamped below at 0. -/
theorem toNat_floor_eq_max_trunc (q : ℚ) :
    ((⌊q⌋.toNat : ℤ)) = max 0 (truncTowardZero q) := by
  unfold truncTowardZero
  rcases le_or_lt 0 q with h | h
  · rw [if_pos h, Int.toNat_of_nonneg (Int.floor_nonneg.mpr h), eq_comm,
      max_eq_right (Int.floor_nonneg.mpr h)]
  · have hfloor : ⌊q⌋ ≤ 0 := by
      calc ⌊q⌋ ≤ ⌊(0 : ℚ)⌋ := Int.floor_le_floor h.le
      _ = 0 := Int.floor_zero
    have hceil : ⌈q⌉ ≤ 0 := Int.ceil_le.mpr (by exact_mod_cast h.le)
    rw [if_neg (not_le.mpr h), Int.toNat_of_nonpos hfloor, eq_comm, max_eq_left hceil]
    rfl

/-- A negative quotient becomes offset 0 under the saturating cast. -/
theorem toNat_floor_of_neg (q : ℚ) (h : q < 0) : (⌊q⌋).toNat = 0 :=
  Int.toNat_of_nonpos (by
    calc ⌊q⌋ ≤ ⌊(0 : ℚ)⌋ := Int.floor_le_floor h.le
    _ = 0 := Int.floor_zero)

/-- A non-positive quotient is clamped to offset 0 by the padder. -/
theorem pad_xoff_of_nonpos (gt vgt : GeoTransform) (m : ℕ)
    (h : ((expand_origin gt m).xOrigin - vgt.xOrigin) / vgt.pixelWidth ≤ 0) :
    pad_xoff gt vgt m = 0 := by
  rw [pad_xoff, max_eq_right h, Int.floor_zero]

/-- A non-positive quotient is clamped to offset 0 by the padder (y side). -/
theorem pad_yoff_of_nonpos (gt vgt : GeoTransform) (m : ℕ)
    (h : (vgt.yOrigin - (expand_origin gt m).yOrigin) / |vgt.pixelHeight| ≤ 0) :
    pad_yoff gt vgt m = 0 := by
  rw [pad_yoff, max_eq_right h, Int.floor_zero]

/-- Evaluation rule for `add_margin_to_geotiff` once the four window numbers
are known and the window is admissible. -/
theorem add_margin_eq_of (ds vrt : Raster) (m : ℕ) (xo yo co ro : ℤ)
    (hx : pad_xoff ds.gt vrt.gt m = xo) (hy : pad_yoff ds.gt vrt.gt m = yo)
    (hc : pad_cols ds vrt m = co) (hrw : pad_rows ds vrt m = ro)
    (hb : 0 ≤ xo ∧ 0 ≤ yo ∧ 0 < co ∧ 0 < ro ∧
      xo + co ≤ (vrt.width : ℤ) ∧ yo + ro ≤ (vrt.height : ℤ)) :
    add_margin_to_geotiff ds m vrt =
      some { width := co.toNat, height := ro.toNat
             gt := expand_origin ds.gt m
             projection := ds.projection
             data := fun c r => vrt.data (xo + c) (yo + r) } := by
  unfold add_margin_to_geotiff read_as
  rw [hx, hy, hc, hrw, if_pos hb]

/-- Evaluation rule for `trim_buffered_to_size` once the two offsets are
known and the window is admissible. -/
theorem trim_eq_of (dso dsb : Raster) (xo yo : ℕ)
    (hx : crop_x_offset dso.gt dsb.gt = xo) (hy : crop_y_offset dso.gt dsb.gt = yo)
    (hb : 0 < (dso.width : ℤ) ∧ 0 < (dso.height : ℤ) ∧
      (xo : ℤ) + (dso.width : ℤ) ≤ (dsb.width : ℤ) ∧
      (yo : ℤ) + (dso.height : ℤ) ≤ (dsb.height : ℤ)) :
    trim_buffered_to_size dso dsb =
      some { width := dso.width, height := dso.height
             gt := dso.gt
             projection := dso.projection
             data := fun c r => dsb.data ((xo : ℤ) + c) ((yo : ℤ) + r) } := by
  unfold trim_buffered_to_size read_as
  rw [hx, hy, if_pos ⟨Int.natCast_nonneg xo, Int.natCast_nonneg yo,
    hb.1, hb.2.1, hb.2.2.1, hb.2.2.2⟩]

/-- Cropping against a raster carrying the expanded geotransform recovers the
margin as x offset (the pixel widths cancel). -/
theorem crop_x_offset_expand (gt : GeoTransform) (m : ℕ) (hpw : gt.pixelWidth ≠ 0) :
    crop_x_offset gt (expand_origin gt m) = m := by
  unfold crop_x_offset expand_origin
  have hq : (gt.xOrigin - (gt.xOrigin - (m : ℚ) * gt.pixelWidth)) / gt.pixelWidth
      = (m : ℚ) := by
    rw [sub_sub_cancel, mul_div_assoc, div_self hpw, mul_one]
  rw [hq, Int.floor_natCast, Int.toNat_natCast]

/-- Cropping against a raster carrying the expanded geotransform recovers the
margin as y offset (the pixel heights cancel, whatever their sign). -/
theorem crop_y_offset_expand (gt : GeoTransform) (m : ℕ) (hph : gt.pixelHeight ≠ 0) :
    crop_y_offset gt (expand_origin gt m) = m := by
  unfold crop_y_offset expand_origin
  have hq : (gt.yOrigin - (gt.yOrigin - (m : ℚ) * gt.pixelHeight)) / gt.pixelHeight
      = (m : ℚ) := by
    rw [sub_sub_cancel, mul_div_assoc, div_self hph, mul_one]
  rw [hq, Int.floor_natCast, Int.toNat_natCast]

/-- The padder's x offset for a tile aligned to the mosaic grid at column `i`
with at least `m` mosaic columns to its left. -/
theorem pad_xoff_aligned (gt vgt : GeoTransform) (m i : ℕ)
    (hpw : 0 < vgt.pixelWidth) (hgw : gt.pixelWidth = vgt.pixelWidth)
    (hx : gt.xOrigin = vgt.xOrigin + (i : ℚ) * vgt.pixelWidth) (hmi : m ≤ i) :
    pad_xoff gt vgt m = (i : ℤ) - m := by
  unfold pad_xoff expand_origin
  have hnum : gt.xOrigin - (m : ℚ) * gt.pixelWidth - vgt.xOrigin
      = ((i : ℚ) - m) * vgt.pixelWidth := by
    rw [hx, hgw]; ring
  have hq : (gt.xOrigin - (m : ℚ) * gt.pixelWidth - vgt.xOrigin) / vgt.pixelWidth
      = (i : ℚ) - m := by
    rw [hnum, mul_div_assoc, div_self hpw.ne', mul_one]
  have hge : (0 : ℚ) ≤ (i : ℚ) - m := by
    rw [sub_nonneg]
    exact_mod_cast hmi
  have hcast : (i : ℚ) - m = (((i : ℤ) - m : ℤ) : ℚ) := by push_cast; ring
  rw [hq, max_eq_left hge, hcast, Int.floor_intCast]

/-- The padder's y offset for a tile aligned to the mosaic grid at row `j`
with at least `m` mosaic rows above it (north-up mosaic). -/
theorem pad_yoff_aligned (gt vgt : GeoTransform) (m j : ℕ)
    (hph : vgt.pixelHeight < 0) (hgh : gt.pixelHeight = vgt.pixelHeight)
    (hy : gt.yOrigin = vgt.yOrigin + (j : ℚ) * vgt.pixelHeight) (hmj : m ≤ j) :
    pad_yoff gt vgt m = (j : ℤ) - m := by
  unfold pad_yoff expand_origin
  have habs : |vgt.pixelHeight| = -vgt.pixelHeight := abs_of_neg hph
  have hnum : vgt.yOrigin - (gt.yOrigin - (m : ℚ) * gt.pixelHeight)
      = ((j : ℚ) - m) * (-vgt.pixelHeight) := by
    rw [hy, hgh]; ring
  have hq : (vgt.yOrigin - (gt.yOrigin - (m : ℚ) * gt.pixelHeight)) / |vgt.pixelHeight|
      = (j : ℚ) - m := by
    rw [habs, hnum, mul_div_assoc, div_self (neg_ne_zero.mpr hph.ne), mul_one]
  have hge : (0 : ℚ) ≤ (j : ℚ) - m := by
    rw [sub_nonneg]
    exact_mod_cast hmj
  have hcast : (j : ℚ) - m = (((j : ℤ) - m : ℤ) : ℚ) := by push_cast; ring
  rw [hq, max_eq_left hge, hcast, Int.floor_intCast]

/-! ### Concrete padder evaluations -/

/-- Padding Scenario A's tile against the 2000×2000 mosaic with margin 10. -/
theorem pad_tileA_eq :
    add_margin_to_geotiff tileA 10 mosaic2000 =
      some { width := 120, height := 120
             gt := expand_origin tileA.gt 10
             projection := tileA.projection
             data := fun c r => mosaic2000.data (990 + c) (0 + r) } := by
  have hx : pad_xoff tileA.gt mosaic2000.gt 10 = 990 := by
    unfold pad_xoff expand_origin tileA mosaic2000; norm_num
  have hy : pad_yoff tileA.gt mosaic2000.gt 10 = 0 := by
    unfold pad_yoff expand_origin tileA mosaic2000; norm_num
  have hc : pad_cols tileA mosaic2000 10 = 120 := by
    unfold pad_cols; rw [hx]; norm_num [tileA, mosaic2000]
  have hrw : pad_rows tileA mosaic2000 10 = 120 := by
    unfold pad_rows; rw [hy]; norm_num [tileA, mosaic2000]
  exact add_margin_eq_of tileA mosaic2000 10 990 0 120 120 hx hy hc hrw
    (by unfold mosaic2000; norm_num)

/-- Padding the corner tile against the 2000×2000 mosaic with margin 10:
both offsets clamp to 0 yet the window is the full 120×120. -/
theorem pad_tileCorner_eq :
    add_margin_to_geotiff tileCorner 10 mosaic2000 =
      some { width := 120, height := 120
             gt := expand_origin tileCorner.gt 10
             projection := tileCorner.projection
             data := fun c r => mosaic2000.data (0 + c) (0 + r) } := by
  have hx : pad_xoff tileCorner.gt mosaic2000.gt 10 = 0 :=
    pad_xoff_of_nonpos _ _ _ (by unfold expand_origin tileCorner mosaic2000; norm_num)
  have hy : pad_yoff tileCorner.gt mosaic2000.gt 10 = 0 :=
    pad_yoff_of_nonpos _ _ _ (by unfold expand_origin tileCorner mosaic2000; norm_num)
  have hc : pad_cols tileCorner mosaic2000 10 = 120 := by
    unfold pad_cols; rw [hx]; norm_num [tileCorner, mosaic2000]
  have hrw : pad_rows tileCorner mosaic2000 10 = 120 := by
    unfold pad_rows; rw [hy]; norm_num [tileCorner, mosaic2000]
  exact add_margin_eq_of tileCorner mosaic2000 10 0 0 120 120 hx hy hc hrw
    (by unfold mosaic2000; norm_num)

/-! ### Claim theorems -/

/-- Claim C4 (confirmed): for all inputs, the padder's pixel offsets into the
mosaic equal `floor((expanded_x - mosaic_x)/mosaic_pixel_width)` and
`floor((mosaic_y - expanded_y)/abs(mosaic_pixel_height))` clamped below at 0,
and are therefore never negative. -/
theorem pad_offsets_nonneg (gt vgt : GeoTransform) (m : ℕ) :
    pad_xoff gt vgt m =
      max 0 ⌊((expand_origin gt m).xOrigin - vgt.xOrigin) / vgt.pixelWidth⌋ ∧
    pad_yoff gt vgt m =
      max 0 ⌊(vgt.yOrigin - (expand_origin gt m).yOrigin) / |vgt.pixelHeight|⌋ ∧
    0 ≤ pad_xoff gt vgt m ∧ 0 ≤ pad_yoff gt vgt m := by
  refine ⟨floor_max_zero _, floor_max_zero _, ?_, ?_⟩
  · rw [pad_xoff, floor_max_zero]; exact le_max_left 0 _
  · rw [pad_yoff, floor_max_zero]; exact le_max_left 0 _

/-- Claim C7 (confirmed): the padder's expanded geotransform is the input
geotransform with `x_origin` shifted by `-margin * pixel_width` and `y_origin`
shifted by `-margin * pixel_height`; the other four coefficients are
unchanged. -/
theorem expand_origin_spec (gt : GeoTransform) (m : ℕ) :
    (expand_origin gt m).xOrigin = gt.xOrigin - m * gt.pixelWidth ∧
    (expand_origin gt m).yOrigin = gt.yOrigin - m * gt.pixelHeight ∧
    (expand_origin gt m).pixelWidth = gt.pixelWidth ∧
    (expand_origin gt m).xSkew = gt.xSkew ∧
    (expand_origin gt m).ySkew = gt.ySkew ∧
    (expand_origin gt m).pixelHeight = gt.pixelHeight :=
  ⟨rfl, rfl, rfl, rfl, rfl, rfl⟩

/-- Claim C10 (confirmed): the cropper's offsets into the padded tile are
never negative for any pair of geotransforms; a negative quotient is
saturated to 0 by the unsigned conversion. -/
theorem crop_offsets_saturate (gto gtb : GeoTransform) :
    ((gto.xOrigin - gtb.xOrigin) / gtb.pixelWidth < 0 →
      crop_x_offset gto gtb = 0) ∧
    ((gto.yOrigin - gtb.yOrigin) / gtb.pixelHeight < 0 →
      crop_y_offset gto gtb = 0) ∧
    0 ≤ crop_x_offset gto gtb ∧ 0 ≤ crop_y_offset gto gtb := by
  refine ⟨fun h => ?_, fun h => ?_, Nat.zero_le _, Nat.zero_le _⟩
  · rw [crop_x_offset, Int.toNat_of_nonpos]
    calc ⌊(gto.xOrigin - gtb.xOrigin) / gtb.pixelWidth⌋ ≤ ⌊(0 : ℚ)⌋ :=
      Int.floor_le_floor h.le
    _ = 0 := Int.floor_zero
  · rw [crop_y_offset, Int.toNat_of_nonpos]
    calc ⌊(gto.yOrigin - gtb.yOrigin) / gtb.pixelHeight⌋ ≤ ⌊(0 : ℚ)⌋ :=
      Int.floor_le_floor h.le
    _ = 0 := Int.floor_zero

/-- Witness for C10 at a concrete input with both quotients negative. -/
theorem crop_offsets_saturate_holds :
    ((tileCorner.gt.xOrigin - gtShift.xOrigin) / gtShift.pixelWidth < 0 ∧
      (tileCorner.gt.yOrigin - gtShift.yOrigin) / gtShift.pixelHeight < 0) ∧
    crop_x_offset tileCorner.gt gtShift = 0 ∧
    crop_y_offset tileCorner.gt gtShift = 0 := by
  have hx : (tileCorner.gt.xOrigin - gtShift.xOrigin) / gtShift.pixelWidth < 0 := by
    unfold tileCorner gtShift; norm_num
  have hy : (tileCorner.gt.yOrigin - gtShift.yOrigin) / gtShift.pixelHeight < 0 := by
    unfold tileCorner gtShift; norm_num
  exact ⟨⟨hx, hy⟩, (crop_offsets_saturate tileCorner.gt gtShift).1 hx,
    (crop_offsets_saturate tileCorner.gt gtShift).2.1 hy⟩

/-- Counterexample for C6: with the original's origin 10 world units left of
the buffered raster's origin (quotient −10), the code's x offset is 0 while
truncation toward zero gives −10 — the crop offset is not the
truncated-toward-zero quotient. -/
theorem crop_offset_not_trunc :
    ¬ ((crop_x_offset tileCorner.gt gtShift : ℤ) =
      truncTowardZero ((tileCorner.gt.xOrigin - gtShift.xOrigin) / gtShift.pixelWidth)) := by
  have h1 : (crop_x_offset tileCorner.gt gtShift : ℤ) = 0 := by
    rw [crop_x_offset, toNat_floor_of_neg _ (by unfold tileCorner gtShift; norm_num)]
    rfl
  have h2 : truncTowardZero ((tileCorner.gt.xOrigin - gtShift.xOrigin) / gtShift.pixelWidth)
      = -10 := by
    unfold truncTowardZero tileCorner gtShift
    norm_num
    rw [show ((-10 : ℚ)) = (((-10 : ℤ)) : ℚ) by norm_num, Int.ceil_intCast]
  rw [h1, h2]
  norm_num

/-- Claim C6 as amended: for north-up buffered rasters (negative pixel
height), the cropper's offsets are the quotients
`(orig_x - padded_x)/padded_pixel_width` and
`(padded_y - orig_y)/abs(padded_pixel_height)` truncated toward zero and
clamped below at 0 (the saturating unsigned cast), and the window read at
that offset is sized exactly to the original tile's raster size. -/
theorem crop_offset_formula (dso dsb : Raster) (hph : dsb.gt.pixelHeight < 0) :
    (crop_x_offset dso.gt dsb.gt : ℤ) =
      max 0 (truncTowardZero ((dso.gt.xOrigin - dsb.gt.xOrigin) / dsb.gt.pixelWidth)) ∧
    (crop_y_offset dso.gt dsb.gt : ℤ) =
      max 0 (truncTowardZero ((dsb.gt.yOrigin - dso.gt.yOrigin) / |dsb.gt.pixelHeight|)) ∧
    (∀ out, trim_buffered_to_size dso dsb = some out →
      out.width = dso.width ∧ out.height = dso.height) := by
  refine ⟨toNat_floor_eq_max_trunc _, ?_, ?_⟩
  · have habs : |dsb.gt.pixelHeight| = -dsb.gt.pixelHeight := abs_of_neg hph
    have hq : (dsb.gt.yOrigin - dso.gt.yOrigin) / (-dsb.gt.pixelHeight) =
        (dso.gt.yOrigin - dsb.gt.yOrigin) / dsb.gt.pixelHeight := by
      rw [div_neg, ← neg_div, neg_sub]
    rw [habs, hq, crop_y_offset]
    exact toNat_floor_eq_max_trunc _
  · intro out h
    unfold trim_buffered_to_size at h
    rcases hr : read_as dsb ((crop_x_offset dso.gt dsb.gt : ℕ) : ℤ)
        ((crop_y_offset dso.gt dsb.gt : ℕ) : ℤ) (dso.width : ℤ) (dso.height : ℤ) with
      _ | w
    · rw [hr] at h; exact absurd h (by simp)
    · rw [hr] at h
      cases h.symm
      exact ⟨rfl, rfl⟩

/-- Claim C8 (confirmed): Scenario A — a 100×100 tile with origin
`(1000, 2000)` and pixel size `(1,-1)`, padded with margin 10 against a
mosaic covering `(0,0)`–`(2000,2000)` at the same pixel size, yields a
120×120 output with geotransform origin `(990, 2010)`. -/
theorem scenario_a :
    (add_margin_to_geotiff tileA 10 mosaic2000).map
      (fun out => (out.width, out.height, out.gt.xOrigin, out.gt.yOrigin)) =
      some (120, 120, (990 : ℚ), (2010 : ℚ)) := by
  rw [pad_tileA_eq, Option.map_some']
  have hx : (expand_origin tileA.gt 10).xOrigin = 990 := by
    unfold expand_origin tileA; norm_num
  have hy : (expand_origin tileA.gt 10).yOrigin = 2010 := by
    unfold expand_origin tileA; norm_num
  rw [hx, hy]

/-- Counterexample for C2: the corner tile's expanded window extends past the
mosaic's left and top boundaries (expanded origin `(-10, 2010)` lies outside
the `(0,0)`–`(2000,2000)` mosaic), yet the padded output is a full
`size + 2*margin = 120` wide and high — not strictly less. -/
theorem margin_clamp_corner_fails :
    (expand_origin tileCorner.gt 10).xOrigin < mosaic2000.gt.xOrigin ∧
    mosaic2000.gt.yOrigin < (expand_origin tileCorner.gt 10).yOrigin ∧
    (add_margin_to_geotiff tileCorner 10 mosaic2000).map
      (fun out => (out.width, out.height)) =
      some (tileCorner.width + 2 * 10, tileCorner.height + 2 * 10) := by
  refine ⟨?_, ?_, ?_⟩
  · unfold expand_origin tileCorner mosaic2000; norm_num
  · unfold expand_origin tileCorner mosaic2000; norm_num
  · rw [pad_tileCorner_eq, Option.map_some']
    unfold tileCorner
    rfl

/-- Claim C2 as amended: the padded window never exceeds the mosaic's
remaining extent from the computed (clamped) offset, and the output size in a
dimension is strictly smaller than `tile_size + 2*margin` exactly when that
remaining extent is smaller; when the expanded origin lies at or outside the
mosaic's near (left/top) boundary the offset clamps to 0, but the size on
that side is not reduced unless the mosaic's remaining extent is itself
smaller than `tile_size + 2*margin`. -/
theorem margin_clamp_amended (ds vrt : Raster) (m : ℕ) :
    pad_cols ds vrt m ≤ (vrt.width : ℤ) - pad_xoff ds.gt vrt.gt m ∧
    pad_rows ds vrt m ≤ (vrt.height : ℤ) - pad_yoff ds.gt vrt.gt m ∧
    ((vrt.width : ℤ) - pad_xoff ds.gt vrt.gt m < ((ds.width + 2 * m : ℕ) : ℤ) →
      pad_cols ds vrt m < ((ds.width + 2 * m : ℕ) : ℤ)) ∧
    ((vrt.height : ℤ) - pad_yoff ds.gt vrt.gt m < ((ds.height + 2 * m : ℕ) : ℤ) →
      pad_rows ds vrt m < ((ds.height + 2 * m : ℕ) : ℤ)) ∧
    (((expand_origin ds.gt m).xOrigin - vrt.gt.xOrigin) / vrt.gt.pixelWidth ≤ 0 →
      pad_xoff ds.gt vrt.gt m = 0) ∧
    ((vrt.gt.yOrigin - (expand_origin ds.gt m).yOrigin) / |vrt.gt.pixelHeight| ≤ 0 →
      pad_yoff ds.gt vrt.gt m = 0) := by
  refine ⟨min_le_left _ _, min_le_left _ _, fun h => lt_of_le_of_lt (min_le_left _ _) h,
    fun h => lt_of_le_of_lt (min_le_left _ _) h,
    pad_xoff_of_nonpos ds.gt vrt.gt m, pad_yoff_of_nonpos ds.gt vrt.gt m⟩

/-- Witness for C2-as-amended: a corner tile against a 110×110 mosaic with
margin 10, where the remaining extent (110) really is smaller than
`100 + 2*10` and the output shrinks to 110, and both clamps fire. -/
theorem margin_clamp_amended_holds :
    ((mosaic110.width : ℤ) - pad_xoff tileCorner110.gt mosaic110.gt 10 <
      ((tileCorner110.width + 2 * 10 : ℕ) : ℤ) ∧
     ((expand_origin tileCorner110.gt 10).xOrigin - mosaic110.gt.xOrigin) /
        mosaic110.gt.pixelWidth ≤ 0) ∧
    pad_cols tileCorner110 mosaic110 10 < ((tileCorner110.width + 2 * 10 : ℕ) : ℤ) ∧
    pad_xoff tileCorner110.gt mosaic110.gt 10 = 0 := by
  have hq : ((expand_origin tileCorner110.gt 10).xOrigin - mosaic110.gt.xOrigin) /
      mosaic110.gt.pixelWidth ≤ 0 := by
    unfold expand_origin tileCorner110 mosaic110; norm_num
  have hx0 : pad_xoff tileCorner110.gt mosaic110.gt 10 = 0 :=
    (margin_clamp_amended tileCorner110 mosaic110 10).2.2.2.2.1 hq
  have hlt : (mosaic110.width : ℤ) - pad_xoff tileCorner110.gt mosaic110.gt 10 <
      ((tileCorner110.width + 2 * 10 : ℕ) : ℤ) := by
    rw [hx0]; unfold mosaic110 tileCorner110; norm_num
  exact ⟨⟨hlt, hq⟩, (margin_clamp_amended tileCorner110 mosaic110 10).2.2.1 hlt, hx0⟩

/-- Claim C9 (confirmed): the padder assigns the expanded geotransform to
every output unconditionally — independently of whether the mosaic offsets
were clamped; consequently, when the expanded origin lies outside the mosaic
on a side (strictly left of the mosaic's x origin with a rightward pixel
width, or strictly above the mosaic's y origin), the offset on that side
clamps to 0 and the world position of the first mosaic pixel actually read
differs from the output's declared origin on that side. -/
theorem declared_origin_misregistered (ds vrt : Raster) (m : ℕ) :
    (∀ out, add_margin_to_geotiff ds m vrt = some out →
      out.gt = expand_origin ds.gt m) ∧
    ((expand_origin ds.gt m).xOrigin < vrt.gt.xOrigin → 0 ≤ vrt.gt.pixelWidth →
      pad_xoff ds.gt vrt.gt m = 0 ∧
      vrt.gt.xOrigin + (pad_xoff ds.gt vrt.gt m : ℚ) * vrt.gt.pixelWidth ≠
        (expand_origin ds.gt m).xOrigin) ∧
    (vrt.gt.yOrigin < (expand_origin ds.gt m).yOrigin →
      pad_yoff ds.gt vrt.gt m = 0 ∧
      vrt.gt.yOrigin + (pad_yoff ds.gt vrt.gt m : ℚ) * vrt.gt.pixelHeight ≠
        (expand_origin ds.gt m).yOrigin) := by
  refine ⟨?_, ?_, ?_⟩
  · intro out h
    unfold add_margin_to_geotiff at h
    rcases hr : read_as vrt (pad_xoff ds.gt vrt.gt m) (pad_yoff ds.gt vrt.gt m)
        (pad_cols ds vrt m) (pad_rows ds vrt m) with _ | w
    · rw [hr] at h; exact absurd h (by simp)
    · rw [hr] at h
      cases h.symm
      rfl
  · intro hout hpw
    have hx0 : pad_xoff ds.gt vrt.gt m = 0 :=
      pad_xoff_of_nonpos ds.gt vrt.gt m
        (div_nonpos_of_nonpos_of_nonneg (by linarith) hpw)
    refine ⟨hx0, ?_⟩
    rw [hx0]
    push_cast
    rw [zero_mul, add_zero]
    exact ne_of_gt hout
  · intro hout
    have hy0 : pad_yoff ds.gt vrt.gt m = 0 :=
      pad_yoff_of_nonpos ds.gt vrt.gt m
        (div_nonpos_of_nonpos_of_nonneg (by linarith) (abs_nonneg vrt.gt.pixelHeight))
    refine ⟨hy0, ?_⟩
    rw [hy0]
    push_cast
    rw [zero_mul, add_zero]
    exact ne_of_lt hout

/-- Witness for C9 at the corner tile against the 2000×2000 mosaic, whose
expanded origin `(-10, 2010)` lies outside the mosaic on both the x and the
y side, discharging all the antecedents. -/
theorem declared_origin_misregistered_holds :
    ((expand_origin tileCorner.gt 10).xOrigin < mosaic2000.gt.xOrigin ∧
      0 ≤ mosaic2000.gt.pixelWidth ∧
      mosaic2000.gt.yOrigin < (expand_origin tileCorner.gt 10).yOrigin) ∧
    (∀ out, add_margin_to_geotiff tileCorner 10 mosaic2000 = some out →
      out.gt = expand_origin tileCorner.gt 10) ∧
    (pad_xoff tileCorner.gt mosaic2000.gt 10 = 0 ∧
      mosaic2000.gt.xOrigin +
          (pad_xoff tileCorner.gt mosaic2000.gt 10 : ℚ) * mosaic2000.gt.pixelWidth ≠
        (expand_origin tileCorner.gt 10).xOrigin) ∧
    (pad_yoff tileCorner.gt mosaic2000.gt 10 = 0 ∧
      mosaic2000.gt.yOrigin +
          (pad_yoff tileCorner.gt mosaic2000.gt 10 : ℚ) * mosaic2000.gt.pixelHeight ≠
        (expand_origin tileCorner.gt 10).yOrigin) := by
  have h1 : (expand_origin tileCorner.gt 10).xOrigin < mosaic2000.gt.xOrigin := by
    unfold expand_origin tileCorner mosaic2000; norm_num
  have h2 : (0 : ℚ) ≤ mosaic2000.gt.pixelWidth := by unfold mosaic2000; norm_num
  have h3 : mosaic2000.gt.yOrigin < (expand_origin tileCorner.gt 10).yOrigin := by
    unfold expand_origin tileCorner mosaic2000; norm_num
  obtain ⟨ha, hb, hc⟩ := declared_origin_misregistered tileCorner mosaic2000 10
  exact ⟨⟨h1, h2, h3⟩, ha, hb h1 h2, hc h3⟩

/-- Witness for C6-as-amended at a concrete north-up input. -/
theorem crop_offset_formula_holds :
    rShift.gt.pixelHeight < 0 ∧
    ((crop_x_offset tileCorner.gt rShift.gt : ℤ) =
      max 0 (truncTowardZero ((tileCorner.gt.xOrigin - rShift.gt.xOrigin) / rShift.gt.pixelWidth)) ∧
    (crop_y_offset tileCorner.gt rShift.gt : ℤ) =
      max 0 (truncTowardZero ((rShift.gt.yOrigin - tileCorner.gt.yOrigin) / |rShift.gt.pixelHeight|)) ∧
    (∀ out, trim_buffered_to_size tileCorner rShift = some out →
      out.width = tileCorner.width ∧ out.height = tileCorner.height)) := by
  have hph : rShift.gt.pixelHeight < 0 := by unfold rShift gtShift; norm_num
  exact ⟨hph, crop_offset_formula tileCorner rShift hph⟩

/-- The raster that padding `tileCorner` with margin 10 produces. -/
def paddedCorner : Raster :=
  { width := 120, height := 120
    gt := expand_origin tileCorner.gt 10
    projection := tileCorner.projection
    data := fun c r => mosaic2000.data (0 + c) (0 + r) }

/-- Counterexample for C1: for the corner tile, `crop(original, pad(original, 10))`
succeeds but its pixel `(0,0)` holds the mosaic sample from mosaic pixel
`(10,10)` (value 20010), not the original tile's own sample 0 — the clamped
pad offsets misregister the data, so the round trip does not reproduce the
original's pixels even where both are defined. -/
theorem round_trip_boundary_fails :
    add_margin_to_geotiff tileCorner 10 mosaic2000 = some paddedCorner ∧
    (trim_buffered_to_size tileCorner paddedCorner).map (fun out => out.data 0 0) =
      some 20010 ∧
    tileCorner.data 0 0 = 0 ∧ ((20010 : ℚ)) ≠ 0 := by
  refine ⟨pad_tileCorner_eq, ?_, ?_, by norm_num⟩
  · have hcx : crop_x_offset tileCorner.gt paddedCorner.gt = 10 :=
      crop_x_offset_expand tileCorner.gt 10 (by unfold tileCorner; norm_num)
    have hcy : crop_y_offset tileCorner.gt paddedCorner.gt = 10 :=
      crop_y_offset_expand tileCorner.gt 10 (by unfold tileCorner; norm_num)
    have htrim := trim_eq_of tileCorner paddedCorner 10 10 hcx hcy
      (by unfold tileCorner paddedCorner; norm_num)
    rw [htrim, Option.map_some']
    have hval : paddedCorner.data (((10 : ℕ) : ℤ) + (0 : ℤ)) (((10 : ℕ) : ℤ) + (0 : ℤ))
        = 20010 := by
      unfold paddedCorner mosaic2000
      norm_num
    exact congrArg some hval
  · unfold tileCorner
    norm_num

/-- Claim C1 as amended: for every tile aligned to the mosaic grid whose
expanded window lies entirely inside the mosaic (at least `margin` mosaic
pixels on every side), cropping the result of padding the tile reproduces
the original's raster size, geotransform and projection exactly, and its
pixel data equals the original's own pixel data wherever both are defined.
For a boundary tile the offset clamp misregisters the padded data and the
round trip does not restore the original pixels. -/
theorem round_trip_interior (ds vrt : Raster) (m i j : ℕ)
    (hw : 0 < ds.width) (hh : 0 < ds.height)
    (hpw : 0 < vrt.gt.pixelWidth) (hph : vrt.gt.pixelHeight < 0)
    (hgw : ds.gt.pixelWidth = vrt.gt.pixelWidth)
    (hgh : ds.gt.pixelHeight = vrt.gt.pixelHeight)
    (hx : ds.gt.xOrigin = vrt.gt.xOrigin + (i : ℚ) * vrt.gt.pixelWidth)
    (hy : ds.gt.yOrigin = vrt.gt.yOrigin + (j : ℚ) * vrt.gt.pixelHeight)
    (hmi : m ≤ i) (hmj : m ≤ j)
    (hiw : i + ds.width + m ≤ vrt.width) (hjh : j + ds.height + m ≤ vrt.height)
    (hdata : ∀ c r : ℤ, 0 ≤ c → c < ds.width → 0 ≤ r → r < ds.height →
      ds.data c r = vrt.data ((i : ℤ) + c) ((j : ℤ) + r)) :
    ∃ padded, add_margin_to_geotiff ds m vrt = some padded ∧
      ∃ out, trim_buffered_to_size ds padded = some out ∧
        out.width = ds.width ∧ out.height = ds.height ∧
        out.gt = ds.gt ∧ out.projection = ds.projection ∧
        ∀ c r : ℤ, 0 ≤ c → c < ds.width → 0 ≤ r → r < ds.height →
          out.data c r = ds.data c r := by
  have hiw' : (i : ℤ) + (ds.width : ℤ) + (m : ℤ) ≤ (vrt.width : ℤ) := by
    exact_mod_cast hiw
  have hjh' : (j : ℤ) + (ds.height : ℤ) + (m : ℤ) ≤ (vrt.height : ℤ) := by
    exact_mod_cast hjh
  have hmi' : (m : ℤ) ≤ (i : ℤ) := by exact_mod_cast hmi
  have hmj' : (m : ℤ) ≤ (j : ℤ) := by exact_mod_cast hmj
  have hw' : (0 : ℤ) < (ds.width : ℤ) := by exact_mod_cast hw
  have hh' : (0 : ℤ) < (ds.height : ℤ) := by exact_mod_cast hh
  have hxoff : pad_xoff ds.gt vrt.gt m = (i : ℤ) - m :=
    pad_xoff_aligned ds.gt vrt.gt m i hpw hgw hx hmi
  have hyoff : pad_yoff ds.gt vrt.gt m = (j : ℤ) - m :=
    pad_yoff_aligned ds.gt vrt.gt m j hph hgh hy hmj
  have hcols : pad_cols ds vrt m = ((ds.width + 2 * m : ℕ) : ℤ) := by
    unfold pad_cols
    rw [hxoff]
    apply min_eq_right
    push_cast
    omega
  have hrows : pad_rows ds vrt m = ((ds.height + 2 * m : ℕ) : ℤ) := by
    unfold pad_rows
    rw [hyoff]
    apply min_eq_right
    push_cast
    omega
  have hpad := add_margin_eq_of ds vrt m ((i : ℤ) - m) ((j : ℤ) - m)
    ((ds.width + 2 * m : ℕ) : ℤ) ((ds.height + 2 * m : ℕ) : ℤ)
    hxoff hyoff hcols hrows
    (by refine ⟨by omega, by omega, ?_, ?_, ?_, ?_⟩ <;> push_cast <;> omega)
  refine ⟨_, hpad, ?_⟩
  have hcx : crop_x_offset ds.gt (expand_origin ds.gt m) = m :=
    crop_x_offset_expand ds.gt m (by rw [hgw]; exact hpw.ne')
  have hcy : crop_y_offset ds.gt (expand_origin ds.gt m) = m :=
    crop_y_offset_expand ds.gt m (by rw [hgh]; exact hph.ne)
  have htrim := trim_eq_of ds
    { width := (((ds.width + 2 * m : ℕ) : ℤ)).toNat
      height := (((ds.height + 2 * m : ℕ) : ℤ)).toNat
      gt := expand_origin ds.gt m
      projection := ds.projection
      data := fun c r => vrt.data (((i : ℤ) - m) + c) (((j : ℤ) - m) + r) }
    m m hcx hcy
    (by
      refine ⟨hw', hh', ?_, ?_⟩ <;>
        simp only [Int.toNat_natCast] <;> push_cast <;> omega)
  refine ⟨_, htrim, rfl, rfl, rfl, rfl, ?_⟩
  intro c r hc0 hcw hr0 hrh
  show vrt.data (((i : ℤ) - m) + ((m : ℤ) + c)) (((j : ℤ) - m) + ((m : ℤ) + r))
      = ds.data c r
  rw [hdata c r hc0 hcw hr0 hrh]
  congr 1 <;> omega

/-- Witness for C1-as-amended: the interior tile at mosaic pixel
`(1000, 100)` padded with margin 10 and cropped back reproduces itself. -/
theorem round_trip_interior_holds :
    (10 ≤ 1000 ∧ 1000 + tileInterior.width + 10 ≤ mosaic2000.width ∧
      100 + tileInterior.height + 10 ≤ mosaic2000.height) ∧
    (∃ padded, add_margin_to_geotiff tileInterior 10 mosaic2000 = some padded ∧
      ∃ out, trim_buffered_to_size tileInterior padded = some out ∧
        out.width = tileInterior.width ∧ out.height = tileInterior.height ∧
        out.gt = tileInterior.gt ∧ out.projection = tileInterior.projection ∧
        ∀ c r : ℤ, 0 ≤ c → c < tileInterior.width → 0 ≤ r → r < tileInterior.height →
          out.data c r = tileInterior.data c r) := by
  refine ⟨⟨by norm_num, by unfold tileInterior mosaic2000; norm_num,
    by unfold tileInterior mosaic2000; norm_num⟩, ?_⟩
  exact round_trip_interior tileInterior mosaic2000 10 1000 100
    (by unfold tileInterior; norm_num) (by unfold tileInterior; norm_num)
    (by unfold mosaic2000; norm_num) (by unfold mosaic2000; norm_num)
    (by unfold tileInterior mosaic2000; norm_num)
    (by unfold tileInterior mosaic2000; norm_num)
    (by unfold tileInterior mosaic2000; norm_num)
    (by unfold tileInterior mosaic2000; norm_num)
    (by norm_num) (by norm_num)
    (by unfold tileInterior mosaic2000; norm_num)
    (by unfold tileInterior mosaic2000; norm_num)
    (by intro c r h1 h2 h3 h4; unfold tileInterior mosaic2000; push_cast; ring)

/-- Counterexample for C3: cropping a 100×100 original against a 50×50
buffered raster computes offsets (0,0) — after saturation — and issues a
windowed read of 100×100 into the 50×50 raster: a request that is not inside
`[0, raster_width) x [0, raster_height)`.  The cropper performs no clamping
before reading. -/
theorem crop_read_out_of_bounds :
    ¬ window_in_bounds rShift ((crop_x_offset tileCorner.gt rShift.gt : ℕ) : ℤ)
      ((crop_y_offset tileCorner.gt rShift.gt : ℕ) : ℤ)
      (tileCorner.width : ℤ) (tileCorner.height : ℤ) := by
  have hx : crop_x_offset tileCorner.gt rShift.gt = 0 := by
    rw [crop_x_offset]
    exact toNat_floor_of_neg _ (by unfold tileCorner rShift gtShift; norm_num)
  intro h
  have h3 := h.2.2.1
  rw [hx] at h3
  revert h3
  unfold rShift tileCorner
  norm_num

/-- Claim C3 as amended: the padder's windowed read is always clamped inside
the mosaic — whenever the computed window is non-empty the request lies
entirely inside the mosaic's bounds and the read succeeds; the cropper does
not clamp at all, and an out-of-bounds crop request makes the read fail, so
the tile yields no output. -/
theorem window_bounds_amended (ds vrt : Raster) (m : ℕ)
    (hc : 0 < pad_cols ds vrt m) (hr : 0 < pad_rows ds vrt m) :
    window_in_bounds vrt (pad_xoff ds.gt vrt.gt m) (pad_yoff ds.gt vrt.gt m)
      (pad_cols ds vrt m) (pad_rows ds vrt m) ∧
    (add_margin_to_geotiff ds m vrt).isSome = true ∧
    (∀ dso dsb : Raster,
      ¬ window_in_bounds dsb ((crop_x_offset dso.gt dsb.gt : ℕ) : ℤ)
        ((crop_y_offset dso.gt dsb.gt : ℕ) : ℤ) (dso.width : ℤ) (dso.height : ℤ) →
      trim_buffered_to_size dso dsb = none) := by
  have hx0 : 0 ≤ pad_xoff ds.gt vrt.gt m := by
    rw [pad_xoff, floor_max_zero]; exact le_max_left 0 _
  have hy0 : 0 ≤ pad_yoff ds.gt vrt.gt m := by
    rw [pad_yoff, floor_max_zero]; exact le_max_left 0 _
  have hxb : pad_xoff ds.gt vrt.gt m + pad_cols ds vrt m ≤ (vrt.width : ℤ) := by
    have := min_le_left ((vrt.width : ℤ) - pad_xoff ds.gt vrt.gt m)
      ((ds.width + 2 * m : ℕ) : ℤ)
    rw [← pad_cols] at this
    linarith
  have hyb : pad_yoff ds.gt vrt.gt m + pad_rows ds vrt m ≤ (vrt.height : ℤ) := by
    have := min_le_left ((vrt.height : ℤ) - pad_yoff ds.gt vrt.gt m)
      ((ds.height + 2 * m : ℕ) : ℤ)
    rw [← pad_rows] at this
    linarith
  refine ⟨⟨hx0, hy0, hxb, hyb⟩, ?_, ?_⟩
  · unfold add_margin_to_geotiff read_as
    rw [if_pos ⟨hx0, hy0, hc, hr, hxb, hyb⟩]
    rfl
  · intro dso dsb hn
    unfold trim_buffered_to_size read_as
    rw [if_neg]
    intro hcond
    exact hn ⟨hcond.1, hcond.2.1, hcond.2.2.2.2.1, hcond.2.2.2.2.2⟩

/-- Witness for C3-as-amended at Scenario A's tile and mosaic. -/
theorem window_bounds_amended_holds :
    (0 < pad_cols tileA mosaic2000 10 ∧ 0 < pad_rows tileA mosaic2000 10) ∧
    (window_in_bounds mosaic2000 (pad_xoff tileA.gt mosaic2000.gt 10)
      (pad_yoff tileA.gt mosaic2000.gt 10) (pad_cols tileA mosaic2000 10)
      (pad_rows tileA mosaic2000 10) ∧
    (add_margin_to_geotiff tileA 10 mosaic2000).isSome = true ∧
    (∀ dso dsb : Raster,
      ¬ window_in_bounds dsb ((crop_x_offset dso.gt dsb.gt : ℕ) : ℤ)
        ((crop_y_offset dso.gt dsb.gt : ℕ) : ℤ) (dso.width : ℤ) (dso.height : ℤ) →
      trim_buffered_to_size dso dsb = none)) := by
  have hx : pad_xoff tileA.gt mosaic2000.gt 10 = 990 := by
    unfold pad_xoff expand_origin tileA mosaic2000; norm_num
  have hy : pad_yoff tileA.gt mosaic2000.gt 10 = 0 := by
    unfold pad_yoff expand_origin tileA mosaic2000; norm_num
  have hc : 0 < pad_cols tileA mosaic2000 10 := by
    unfold pad_cols; rw [hx]; norm_num [tileA, mosaic2000]
  have hr : 0 < pad_rows tileA mosaic2000 10 := by
    unfold pad_rows; rw [hy]; norm_num [tileA, mosaic2000]
  exact ⟨⟨hc, hr⟩, window_bounds_amended tileA mosaic2000 10 hc hr⟩

/-- Counterexample for C5: with directory creation succeeding and directory
enumeration succeeding (an empty listing), a failure to open the mosaic VRT
still makes the batch-level padding call return an error — so the batch does
not fail only on directory creation/enumeration failures. -/
theorem vrt_open_failure_errors :
    vrt_buffer true none (some []) 10 = Except.error BatchError.openVrtFailed := rfl

/-- Claim C5 as amended: the padding batch returns an error exactly when
directory creation, opening the mosaic VRT, or directory enumeration fails,
and the cropping batch exactly when directory creation or enumeration fails;
a failure while processing any single tile is skipped: dropping a failing
entry from the listing does not change the batch result, so the batch
continues with the remaining tiles and returns success. -/
theorem batch_error_contract (mk : Bool) (vrtOpen : Option Raster)
    (readDir : Option (List DirItem)) (m : ℕ) (orgDir : String → Option Raster) :
    (batchOk (vrt_buffer mk vrtOpen readDir m) =
      (mk && vrtOpen.isSome && readDir.isSome)) ∧
    (batchOk (crop_down_to_size mk orgDir readDir) = (mk && readDir.isSome)) ∧
    (∀ (vrt : Raster) (l1 l2 : List DirItem) (b : DirItem), pad_item vrt m b = none →
      vrt_buffer true (some vrt) (some (l1 ++ b :: l2)) m =
        vrt_buffer true (some vrt) (some (l1 ++ l2)) m) ∧
    (∀ (l1 l2 : List DirItem) (b : DirItem), crop_item orgDir b = none →
      crop_down_to_size true orgDir (some (l1 ++ b :: l2)) =
        crop_down_to_size true orgDir (some (l1 ++ l2))) := by
  refine ⟨?_, ?_, ?_, ?_⟩
  · cases mk <;> cases vrtOpen <;> cases readDir <;> rfl
  · cases mk <;> cases readDir <;> rfl
  · intro vrt l1 l2 b hb
    show Except.ok (List.filterMap (pad_item vrt m) (l1 ++ b :: l2)) =
      Except.ok (List.filterMap (pad_item vrt m) (l1 ++ l2))
    rw [List.filterMap_append, List.filterMap_append, List.filterMap_cons, hb]
  · intro l1 l2 b hb
    show Except.ok (List.filterMap (crop_item orgDir) (l1 ++ b :: l2)) =
      Except.ok (List.filterMap (crop_item orgDir) (l1 ++ l2))
    rw [List.filterMap_append, List.filterMap_append, List.filterMap_cons, hb]

/-- Witness for C5-as-amended: concrete instances of all four parts,
including a bad directory entry being skipped without changing the batch
result. -/
theorem batch_error_contract_holds :
    batchOk (vrt_buffer true (some mosaic2000) (some []) 10) = true ∧
    batchOk (crop_down_to_size true (fun _ => none) (some [])) = true ∧
    pad_item mosaic2000 10 DirItem.badPath = none ∧
    vrt_buffer true (some mosaic2000) (some ([] ++ DirItem.badPath :: [])) 10 =
      vrt_buffer true (some mosaic2000) (some ([] ++ [])) 10 ∧
    crop_down_to_size true (fun _ => none) (some ([] ++ DirItem.badPath :: [])) =
      crop_down_to_size true (fun _ => none) (some ([] ++ [])) := by
  refine ⟨?_, ?_, rfl, ?_, ?_⟩
  · rw [(batch_error_contract true (some mosaic2000) (some []) 10 (fun _ => none)).1]
    rfl
  · rw [(batch_error_contract true (some mosaic2000) (some []) 10 (fun _ => none)).2.1]
    rfl
  · exact (batch_error_contract true (some mosaic2000) (some []) 10
      (fun _ => none)).2.2.1 mosaic2000 [] [] DirItem.badPath rfl
  · exact (batch_error_contract true (some mosaic2000) (some []) 10
      (fun _ => none)).2.2.2 [] [] DirItem.badPath rfl

end VrtBuffer
